import Mathlib

/-!
Verification of the pico_dht DHT sensor driver (src/dht/dht.c, src/dht/include/dht.h,
src/dht_example.c) against its natural-language specification.

Shallow embedding conventions:
* C `float` arithmetic is modelled as exact rational arithmetic over `ℚ`
  (the decode formulas only involve small sums and a division by 10).
* Bytes (`uint8_t`) are modelled as `Nat`; theorems carry `< 256` bounds where
  the C type system guarantees them.
* The 32-bit microsecond tick is modelled as `Nat` with explicit reduction
  modulo `2 ^ 32 = 4294967296` where the C code relies on `uint32_t` wraparound.
* Hardware state that the driver only reads (DMA-channel busy flag, PIO
  state-machine enabled flag) is an explicit environment record `hw_env_t`;
  hardware side effects that do not touch the `dht_t` fields are not modelled.
* C `assert` failures are modelled as `Except assertion_t` errors.
-/

/-- Sensor model enum, from `dht_model_t` in dht.h. -/
inductive dht_model_t
| DHT11
| DHT12
| DHT21
| DHT22
deriving DecidableEq

/-- Measurement result enum, from `dht_result_t` in dht.h. -/
inductive dht_result_t
| DHT_RESULT_OK
| DHT_RESULT_TIMEOUT
| DHT_RESULT_BAD_CHECKSUM
deriving DecidableEq

/-- The two physical PIO blocks (`pio0`, `pio1`); a C `PIO` pointer that is
not NULL refers to one of these.  NULL is modelled by `Option`. -/
inductive PIOBlock
| pio0
| pio1
deriving DecidableEq

/-- Assertion failures (C `assert` calls in dht.c). -/
inductive assertion_t
| not_initialized
| measurement_in_progress
| no_measurement_in_progress
deriving DecidableEq

/-- `static const uint PIO_SM_CLOCK_FREQUENCY = 1000000;` (dht.c line 15). -/
def PIO_SM_CLOCK_FREQUENCY : Nat := 1000000

/-- `static const uint DHT_LONG_PULSE_THRESHOLD_US = 50;` (dht.c line 16). -/
def DHT_LONG_PULSE_THRESHOLD_US : Nat := 50

/-- `static const uint DHT_MEASUREMENT_TIMEOUT_US = 6000;` (dht.c line 17). -/
def DHT_MEASUREMENT_TIMEOUT_US : Nat := 6000

/-- `get_start_pulse_duration_us` (dht.c lines 23-25). -/
def get_start_pulse_duration_us (model : dht_model_t) : Nat :=
  if model = .DHT21 ∨ model = .DHT22 then 1000 else 18000

/-- The driver-visible fields of `dht_t` (dht.h lines 35-44).  The
`pio_program_offset`, `sm`, `dma_chan` and `data_pin` fields are resource
indices whose values never influence the computations verified here, so they
are omitted; `pio = none` models a NULL `PIO` pointer. -/
structure dht_t where
  pio : Option PIOBlock
  model : dht_model_t
  data : Fin 5 → Nat
  start_time : Nat

/-- Hardware state read (not written) by the driver functions: the PIO
state-machine enabled flag for this instance (`pio_sm_is_enabled`) and the DMA
busy flag as observed after the busy-wait loop (`dma_channel_is_busy` at
dht.c line 175). -/
structure hw_env_t where
  sm_enabled : Bool
  dma_busy_after_wait : Bool

/-- Builds a 5-byte raw sample buffer from its bytes. -/
def mkData (b0 b1 b2 b3 b4 : Nat) : Fin 5 → Nat :=
  fun i => [b0, b1, b2, b3, b4].getD i.val 0

/-- `decode_temperature` (dht.c lines 72-100), with `float` modelled as `ℚ`. -/
def decode_temperature (model : dht_model_t) (b0 b1 : Nat) : ℚ :=
  match model with
  | .DHT11 =>
      if b1 &&& 0x80 ≠ 0 then
        -- below-zero temperature not supported
        0
      else
        (b0 : ℚ) + (1 / 10 : ℚ) * ((b1 &&& 0x7F : Nat) : ℚ)
  | .DHT12 =>
      let temperature : ℚ := (b0 : ℚ) + (1 / 10 : ℚ) * ((b1 &&& 0x7F : Nat) : ℚ)
      if b1 &&& 0x80 ≠ 0 then -temperature else temperature
  | .DHT21 | .DHT22 =>
      let temperature : ℚ := (1 / 10 : ℚ) * ((((b0 &&& 0x7F) <<< 8) + b1 : Nat) : ℚ)
      if b0 &&& 0x80 ≠ 0 then -temperature else temperature

/-- `decode_humidity` (dht.c lines 102-117), with `float` modelled as `ℚ`. -/
def decode_humidity (model : dht_model_t) (b0 b1 : Nat) : ℚ :=
  match model with
  | .DHT11 | .DHT12 => (b0 : ℚ) + (1 / 10 : ℚ) * (b1 : ℚ)
  | .DHT21 | .DHT22 => (1 / 10 : ℚ) * (((b0 <<< 8) + b1 : Nat) : ℚ)

/-- `dht_deinit` (dht.c lines 138-151) restricted to the `dht_t` fields: after
asserting `dht->pio != NULL`, the hardware teardown leaves every field
unchanged until the final `dht->pio = NULL;` (line 150). -/
def dht_deinit (dht : dht_t) : Except assertion_t dht_t :=
  if dht.pio = none then .error .not_initialized
  else .ok { dht with pio := none }

/-- `dht_start_measurement` (dht.c lines 153-161) restricted to the `dht_t`
fields: asserts initialization and that no measurement is in progress, zeroes
the raw sample buffer (line 157) and records `time_us_32()` (line 160);
`now` is the current 32-bit microsecond tick. -/
def dht_start_measurement (dht : dht_t) (env : hw_env_t) (now : Nat) :
    Except assertion_t dht_t :=
  if dht.pio = none then .error .not_initialized
  else if env.sm_enabled then .error .measurement_in_progress
  else .ok { dht with data := fun _ => 0, start_time := now % 4294967296 }

/-- Wraparound-safe elapsed time: `time_us_32() - dht->start_time` computed in
`uint32_t` arithmetic (dht.c line 168), i.e. `(now - start) mod 2 ^ 32`. -/
def elapsed_us_32 (now start_time : Nat) : Nat :=
  (now % 4294967296 + 4294967296 - start_time % 4294967296) % 4294967296

/-- The timeout bound of the busy-wait:
`get_start_pulse_duration_us(dht->model) + DHT_MEASUREMENT_TIMEOUT_US`
(dht.c line 167). -/
def finish_timeout_us (model : dht_model_t) : Nat :=
  get_start_pulse_duration_us model + DHT_MEASUREMENT_TIMEOUT_US

/-- The busy-wait loop guard of `dht_finish_measurement_blocking`
(dht.c line 168): the loop keeps spinning exactly while this is `true`. -/
def finish_wait_guard (dma_busy : Bool) (model : dht_model_t)
    (now start_time : Nat) : Bool :=
  dma_busy && decide (elapsed_us_32 now start_time < finish_timeout_us model)

/-- `dht_finish_measurement_blocking` (dht.c lines 163-190) restricted to the
`dht_t` fields and the result/output behaviour.  The busy-wait loop and the
state-machine shutdown only affect hardware state; `env.dma_busy_after_wait`
is the `dma_channel_is_busy` value observed at line 175.  The output pointers
are modelled as `Option ℚ` cells (`none` = NULL pointer, `some v` = pointer at
a cell currently holding `v`); the returned triple carries the result code and
the final contents of the two cells. -/
def dht_finish_measurement_blocking (dht : dht_t) (env : hw_env_t)
    (humidity temperature_c : Option ℚ) :
    Except assertion_t (dht_result_t × Option ℚ × Option ℚ) :=
  if dht.pio = none then .error .not_initialized
  else if env.sm_enabled = false then .error .no_measurement_in_progress
  else if env.dma_busy_after_wait then
    .ok (.DHT_RESULT_TIMEOUT, humidity, temperature_c)
  else
    let checksum := (dht.data 0 + dht.data 1 + dht.data 2 + dht.data 3) % 256
    if dht.data 4 ≠ checksum then
      .ok (.DHT_RESULT_BAD_CHECKSUM, humidity, temperature_c)
    else
      .ok (.DHT_RESULT_OK,
        humidity.map (fun _ => decode_humidity dht.model (dht.data 0) (dht.data 1)),
        temperature_c.map (fun _ => decode_temperature dht.model (dht.data 2) (dht.data 3)))

/-- The result code of `dht_finish_measurement_blocking`. -/
def finish_result (dht : dht_t) (env : hw_env_t) (humidity temperature_c : Option ℚ) :
    Except assertion_t dht_result_t :=
  (dht_finish_measurement_blocking dht env humidity temperature_c).map Prod.fst

/-- `celsius_to_fahrenheit` (dht_example.c lines 15-17), with `float` as `ℚ`. -/
def celsius_to_fahrenheit (temperature : ℚ) : ℚ :=
  temperature * (9 / 5) + 32

/-- Masking a byte with `0x7F` keeps its low 7 bits. -/
lemma and_127_eq_mod (x : Nat) : x &&& 127 = x % 128 := by
  have h := Nat.and_pow_two_sub_one_eq_mod x 7
  norm_num at h
  exact h

/-- The C test `(x & 0x80)` is nonzero exactly when bit 7 of `x` is set. -/
lemma and_128_ne_zero_iff (x : Nat) : x &&& 128 ≠ 0 ↔ x.testBit 7 = true := by
  constructor
  · intro h
    obtain ⟨i, hi⟩ := Nat.ne_zero_implies_bit_true h
    rw [Nat.testBit_and] at hi
    simp only [Bool.and_eq_true] at hi
    obtain ⟨hx, hb⟩ := hi
    have hi7 : i = 7 := by
      by_contra hne
      rw [show (128 : Nat) = 2 ^ 7 by norm_num, Nat.testBit_two_pow] at hb
      simp at hb
      exact hne hb.symm
    rw [hi7] at hx
    exact hx
  · intro h h0
    have h1 := congrArg (fun n => n.testBit 7) h0
    simp only [Nat.testBit_and, Nat.zero_testBit] at h1
    rw [h] at h1
    simp at h1
    exact absurd h1 (by decide)

/-- `x << 8` multiplies by 256. -/
lemma shiftLeft8 (x : Nat) : x <<< 8 = x * 256 := by
  rw [Nat.shiftLeft_eq]

/-- The Model C/D temperature branch, in plain arithmetic. -/
lemma decode_temperature_dht21_eq (m : dht_model_t) (hm : m = .DHT21 ∨ m = .DHT22)
    (hi lo : Nat) :
    decode_temperature m hi lo =
      if hi.testBit 7 = true then
        -((1 / 10 : ℚ) * ((hi % 128 * 256 + lo : Nat) : ℚ))
      else
        (1 / 10 : ℚ) * ((hi % 128 * 256 + lo : Nat) : ℚ) := by
  rcases hm with hm | hm <;> subst hm <;>
    · show (if hi &&& 128 ≠ 0 then _ else _) = _
      rw [and_127_eq_mod, shiftLeft8]
      by_cases h : hi.testBit 7 = true
      · rw [if_pos ((and_128_ne_zero_iff hi).mpr h), if_pos h]
      · rw [if_neg (fun hc => h ((and_128_ne_zero_iff hi).mp hc)), if_neg h]

/-- The Model A temperature branch, in plain arithmetic. -/
lemma decode_temperature_dht11_eq (hi lo : Nat) :
    decode_temperature .DHT11 hi lo =
      if lo.testBit 7 = true then 0
      else (hi : ℚ) + (1 / 10 : ℚ) * ((lo % 128 : Nat) : ℚ) := by
  show (if lo &&& 128 ≠ 0 then _ else _) = _
  rw [and_127_eq_mod]
  by_cases h : lo.testBit 7 = true
  · rw [if_pos ((and_128_ne_zero_iff lo).mpr h), if_pos h]
  · rw [if_neg (fun hc => h ((and_128_ne_zero_iff lo).mp hc)), if_neg h]

/-- The Model B temperature branch, in plain arithmetic. -/
lemma decode_temperature_dht12_eq (hi lo : Nat) :
    decode_temperature .DHT12 hi lo =
      if lo.testBit 7 = true then
        -((hi : ℚ) + (1 / 10 : ℚ) * ((lo % 128 : Nat) : ℚ))
      else (hi : ℚ) + (1 / 10 : ℚ) * ((lo % 128 : Nat) : ℚ) := by
  show (if lo &&& 128 ≠ 0 then _ else _) = _
  rw [and_127_eq_mod]
  by_cases h : lo.testBit 7 = true
  · rw [if_pos ((and_128_ne_zero_iff lo).mpr h), if_pos h]
  · rw [if_neg (fun hc => h ((and_128_ne_zero_iff lo).mp hc)), if_neg h]

/-- Case-by-case restatement of `dht_finish_measurement_blocking` with the
`checksum` local inlined (definitional). -/
lemma finish_cases (dht : dht_t) (env : hw_env_t) (hum temp : Option ℚ) :
    dht_finish_measurement_blocking dht env hum temp =
      if dht.pio = none then .error .not_initialized
      else if env.sm_enabled = false then .error .no_measurement_in_progress
      else if env.dma_busy_after_wait then .ok (.DHT_RESULT_TIMEOUT, hum, temp)
      else if dht.data 4 ≠ (dht.data 0 + dht.data 1 + dht.data 2 + dht.data 3) % 256 then
        .ok (.DHT_RESULT_BAD_CHECKSUM, hum, temp)
      else
        .ok (.DHT_RESULT_OK,
          hum.map (fun _ => decode_humidity dht.model (dht.data 0) (dht.data 1)),
          temp.map (fun _ => decode_temperature dht.model (dht.data 2) (dht.data 3))) :=
  rfl

/-- When the instance is initialized, a measurement is in progress, and DMA has
completed, the result code is decided by the checksum comparison alone. -/
lemma finish_result_completed (dht : dht_t) (env : hw_env_t) (hum temp : Option ℚ)
    (hpio : ¬dht.pio = none) (hsm : env.sm_enabled = true)
    (hdma : env.dma_busy_after_wait = false) :
    finish_result dht env hum temp =
      .ok (if dht.data 4 = (dht.data 0 + dht.data 1 + dht.data 2 + dht.data 3) % 256
           then .DHT_RESULT_OK else .DHT_RESULT_BAD_CHECKSUM) := by
  unfold finish_result
  rw [finish_cases, if_neg hpio, hsm, hdma]
  by_cases h : dht.data 4 = (dht.data 0 + dht.data 1 + dht.data 2 + dht.data 3) % 256
  · rw [if_neg (by simp), if_neg (by simp), if_neg (not_not_intro h), if_pos h]
    rfl
  · rw [if_neg (by simp), if_neg (by simp), if_pos h, if_neg h]
    rfl

/-- Claim C1: with DMA completed, `dht_finish_measurement_blocking` returns the
checksum-failure result iff byte 4 differs from the mod-256 sum of bytes 0-3;
the buffer `[0x19,0x00,0x01,0x40,0x5A]` validates as matching, and mutating any
single byte of a matching buffer yields a checksum-failure result. -/
theorem finish_checksum_gate (dht : dht_t) (env : hw_env_t) (hum temp : Option ℚ)
    (hpio : ¬dht.pio = none) (hsm : env.sm_enabled = true)
    (hdma : env.dma_busy_after_wait = false)
    (hbytes : ∀ i, dht.data i < 256) :
    (finish_result dht env hum temp = .ok .DHT_RESULT_BAD_CHECKSUM ↔
      dht.data 4 ≠ (dht.data 0 + dht.data 1 + dht.data 2 + dht.data 3) % 256) ∧
    finish_result { dht with data := mkData 0x19 0x00 0x01 0x40 0x5A } env hum temp =
      .ok .DHT_RESULT_OK ∧
    (dht.data 4 = (dht.data 0 + dht.data 1 + dht.data 2 + dht.data 3) % 256 →
      ∀ (i : Fin 5) (v : Nat), v < 256 → v ≠ dht.data i →
        finish_result { dht with data := Function.update dht.data i v } env hum temp =
          .ok .DHT_RESULT_BAD_CHECKSUM) := by
  refine ⟨?_, ?_, ?_⟩
  · rw [finish_result_completed dht env hum temp hpio hsm hdma]
    by_cases h : dht.data 4 = (dht.data 0 + dht.data 1 + dht.data 2 + dht.data 3) % 256
    · rw [if_pos h]
      simp [h]
    · rw [if_neg h]
      simp [h]
  · rw [finish_result_completed { dht with data := mkData 0x19 0x00 0x01 0x40 0x5A }
      env hum temp hpio hsm hdma]
    rfl
  · intro h i v hv hne
    rw [finish_result_completed { dht with data := Function.update dht.data i v }
      env hum temp hpio hsm hdma]
    have hb0 := hbytes 0
    have hb1 := hbytes 1
    have hb2 := hbytes 2
    have hb3 := hbytes 3
    have hb4 := hbytes 4
    have hi5 : i = 0 ∨ i = 1 ∨ i = 2 ∨ i = 3 ∨ i = 4 := by
      fin_cases i <;> decide
    have key : ¬ (Function.update dht.data i v 4 =
        (Function.update dht.data i v 0 + Function.update dht.data i v 1 +
          Function.update dht.data i v 2 + Function.update dht.data i v 3) % 256) := by
      rcases hi5 with rfl | rfl | rfl | rfl | rfl
      all_goals simp only [Function.update_apply]
      all_goals simp
      all_goals omega
    rw [if_neg key]

/-- Witness for `finish_checksum_gate`: a concrete initialized instance with a
mismatching buffer (byte 4 off by one) yields the checksum-failure result. -/
theorem finish_checksum_gate_witness :
    finish_result ⟨some PIOBlock.pio0, .DHT22, mkData 0x19 0x00 0x01 0x40 0x5B, 0⟩
      ⟨true, false⟩ none none = .ok .DHT_RESULT_BAD_CHECKSUM :=
  ((finish_checksum_gate ⟨some PIOBlock.pio0, .DHT22, mkData 0x19 0x00 0x01 0x40 0x5B, 0⟩
      ⟨true, false⟩ none none (by decide) rfl rfl (by decide)).1).mpr (by decide)

/-- Claim C4: if `dht_finish_measurement_blocking` returns the timeout or the
checksum-failure result, neither output cell is written; the outputs change
only on the success result. -/
theorem finish_error_frame (dht : dht_t) (env : hw_env_t) (hum temp h t : Option ℚ)
    (r : dht_result_t)
    (hrun : dht_finish_measurement_blocking dht env hum temp = .ok (r, h, t))
    (hr : r ≠ .DHT_RESULT_OK) : h = hum ∧ t = temp := by
  rw [finish_cases] at hrun
  split at hrun
  · exact absurd hrun (by simp)
  split at hrun
  · exact absurd hrun (by simp)
  split at hrun
  · simp only [Except.ok.injEq, Prod.mk.injEq] at hrun
    exact ⟨hrun.2.1.symm, hrun.2.2.symm⟩
  split at hrun
  · simp only [Except.ok.injEq, Prod.mk.injEq] at hrun
    exact ⟨hrun.2.1.symm, hrun.2.2.symm⟩
  · simp only [Except.ok.injEq, Prod.mk.injEq] at hrun
    exact absurd hrun.1.symm hr

/-- Witness for `finish_error_frame`: a concrete timeout run (DMA still busy)
leaves the output cells at their prior values. -/
theorem finish_error_frame_witness :
    (some (1 : ℚ) = some (1 : ℚ)) ∧ (some (2 : ℚ) = some (2 : ℚ)) :=
  finish_error_frame ⟨some PIOBlock.pio0, .DHT22, fun _ => 0, 0⟩ ⟨true, true⟩
    (some 1) (some 2) (some 1) (some 2) .DHT_RESULT_TIMEOUT rfl (by decide)

/-- Claim C10: an all-zero 5-byte buffer passes checksum validation, so a DMA
transfer of five zero bytes produces the success result with decoded humidity
0.0 and temperature 0.0 for every model — indistinguishable at the public
interface from a genuine 0.0/0.0 reading. -/
theorem finish_zero_buffer (m : dht_model_t) (p : PIOBlock) (st : Nat) (h0 t0 : ℚ) :
    dht_finish_measurement_blocking ⟨some p, m, fun _ => 0, st⟩ ⟨true, false⟩
      (some h0) (some t0) = .ok (.DHT_RESULT_OK, some 0, some 0) := by
  have hh : decode_humidity m 0 0 = 0 := by
    cases m <;> norm_num [decode_humidity, shiftLeft8]
  have ht : decode_temperature m 0 0 = 0 := by
    cases m
    · rw [decode_temperature_dht11_eq]
      norm_num
    · rw [decode_temperature_dht12_eq]
      norm_num
    · rw [decode_temperature_dht21_eq .DHT21 (Or.inl rfl)]
      norm_num
    · rw [decode_temperature_dht21_eq .DHT22 (Or.inr rfl)]
      norm_num
  rw [finish_cases]
  simp [hh, ht]

/-- Claim C5: the busy-wait of `dht_finish_measurement_blocking` continues only
while DMA is busy and the wraparound-safe 32-bit elapsed time since start is
below (the model's start-pulse duration + 6000 µs); the elapsed time is exact
for every pair of 32-bit ticks including counter wraparound, and the timeout is
1000 + 6000 µs for Model C/D and 18000 + 6000 µs for Model A/B. -/
theorem finish_wait_spec (m : dht_model_t) (busy : Bool) (now start d : Nat)
    (hstart : start < 4294967296) (hd : d < 4294967296) :
    (finish_wait_guard busy m now start = true ↔
      busy = true ∧ elapsed_us_32 now start < finish_timeout_us m) ∧
    elapsed_us_32 ((start + d) % 4294967296) start = d ∧
    finish_timeout_us .DHT21 = 1000 + 6000 ∧
    finish_timeout_us .DHT22 = 1000 + 6000 ∧
    finish_timeout_us .DHT11 = 18000 + 6000 ∧
    finish_timeout_us .DHT12 = 18000 + 6000 := by
  refine ⟨?_, ?_, rfl, rfl, rfl, rfl⟩
  · simp [finish_wait_guard]
  · simp only [elapsed_us_32]
    omega

/-- Witness for `finish_wait_spec`: a tick pair that wraps around the 32-bit
counter still yields the exact elapsed time 2000 µs. -/
theorem finish_wait_spec_witness :
    (finish_wait_guard true .DHT22 ((4294967000 + 2000) % 4294967296) 4294967000 = true ↔
      true = true ∧
        elapsed_us_32 ((4294967000 + 2000) % 4294967296) 4294967000 <
          finish_timeout_us .DHT22) ∧
    elapsed_us_32 ((4294967000 + 2000) % 4294967296) 4294967000 = 2000 ∧
    finish_timeout_us .DHT21 = 1000 + 6000 ∧
    finish_timeout_us .DHT22 = 1000 + 6000 ∧
    finish_timeout_us .DHT11 = 18000 + 6000 ∧
    finish_timeout_us .DHT12 = 18000 + 6000 :=
  finish_wait_spec .DHT22 true ((4294967000 + 2000) % 4294967296) 4294967000 2000
    (by decide) (by decide)

/-- Claim C9: `dht_deinit` marks the instance uninitialized by clearing its PIO
reference, and every public operation first asserts that reference is non-NULL,
so after deinitialization `dht_start_measurement`,
`dht_finish_measurement_blocking` and `dht_deinit` all fail that assertion. -/
theorem deinit_gates_operations (dht dht2 : dht_t) (env : hw_env_t) (now : Nat)
    (hum temp : Option ℚ) (hrun : dht_deinit dht = .ok dht2) :
    dht2.pio = none ∧
    dht_start_measurement dht2 env now = .error .not_initialized ∧
    dht_finish_measurement_blocking dht2 env hum temp = .error .not_initialized ∧
    dht_deinit dht2 = .error .not_initialized := by
  unfold dht_deinit at hrun
  split at hrun
  · exact absurd hrun (by simp)
  · have h2 : dht2 = { dht with pio := none } := (Except.ok.inj hrun).symm
    subst h2
    refine ⟨rfl, ?_, ?_, ?_⟩
    · unfold dht_start_measurement
      rw [if_pos rfl]
    · rw [finish_cases, if_pos rfl]
    · unfold dht_deinit
      rw [if_pos rfl]

/-- Witness for `deinit_gates_operations`: deinitializing a concrete
initialized instance, then calling each operation, hits the assertion. -/
theorem deinit_gates_operations_witness :
    (⟨none, .DHT22, fun _ => 0, 0⟩ : dht_t).pio = none ∧
    dht_start_measurement ⟨none, .DHT22, fun _ => 0, 0⟩ ⟨false, false⟩ 0 =
      .error .not_initialized ∧
    dht_finish_measurement_blocking ⟨none, .DHT22, fun _ => 0, 0⟩ ⟨false, false⟩
      none none = .error .not_initialized ∧
    dht_deinit ⟨none, .DHT22, fun _ => 0, 0⟩ = .error .not_initialized :=
  deinit_gates_operations ⟨some PIOBlock.pio0, .DHT22, fun _ => 0, 0⟩
    ⟨none, .DHT22, fun _ => 0, 0⟩ ⟨false, false⟩ 0 none none rfl

/-- Claim C2: for Model C/D the decoded temperature is
`0.1 * (((hi & 0x7F) << 8) + lo)`, negated when bit 7 of `hi` is set;
`hi=0x01, lo=0x40` decodes to 32.0 and `hi=0x81, lo=0x40` to -32.0. -/
theorem dht2x_temperature_spec (hi lo : Nat) :
    (decode_temperature .DHT21 hi lo =
      if hi.testBit 7 = true then
        -((1 / 10 : ℚ) * ((hi % 128 * 256 + lo : Nat) : ℚ))
      else (1 / 10 : ℚ) * ((hi % 128 * 256 + lo : Nat) : ℚ)) ∧
    (decode_temperature .DHT22 hi lo =
      if hi.testBit 7 = true then
        -((1 / 10 : ℚ) * ((hi % 128 * 256 + lo : Nat) : ℚ))
      else (1 / 10 : ℚ) * ((hi % 128 * 256 + lo : Nat) : ℚ)) ∧
    decode_temperature .DHT21 0x01 0x40 = 32 ∧
    decode_temperature .DHT22 0x01 0x40 = 32 ∧
    decode_temperature .DHT21 0x81 0x40 = -32 ∧
    decode_temperature .DHT22 0x81 0x40 = -32 := by
  refine ⟨decode_temperature_dht21_eq .DHT21 (Or.inl rfl) hi lo,
    decode_temperature_dht21_eq .DHT22 (Or.inr rfl) hi lo, ?_, ?_, ?_, ?_⟩
  · rw [decode_temperature_dht21_eq .DHT21 (Or.inl rfl),
      if_neg (show ¬Nat.testBit 0x01 7 = true by decide)]
    norm_num
  · rw [decode_temperature_dht21_eq .DHT22 (Or.inr rfl),
      if_neg (show ¬Nat.testBit 0x01 7 = true by decide)]
    norm_num
  · rw [decode_temperature_dht21_eq .DHT21 (Or.inl rfl),
      if_pos (show Nat.testBit 0x81 7 = true by decide)]
    norm_num
  · rw [decode_temperature_dht21_eq .DHT22 (Or.inr rfl),
      if_pos (show Nat.testBit 0x81 7 = true by decide)]
    norm_num

/-- Claim C3: for Model A the decoded temperature is 0.0 whenever bit 7 of `lo`
is set (never negative), and `hi + 0.1 * (lo & 0x7F)` otherwise; `hi=0x19,
lo=0x85` decodes to 0.0. -/
theorem dht11_temperature_spec (hi lo : Nat) :
    (decode_temperature .DHT11 hi lo =
      if lo.testBit 7 = true then 0
      else (hi : ℚ) + (1 / 10 : ℚ) * ((lo % 128 : Nat) : ℚ)) ∧
    0 ≤ decode_temperature .DHT11 hi lo ∧
    decode_temperature .DHT11 0x19 0x85 = 0 := by
  refine ⟨decode_temperature_dht11_eq hi lo, ?_, ?_⟩
  · rw [decode_temperature_dht11_eq]
    split
    · exact le_refl 0
    · positivity
  · rw [decode_temperature_dht11_eq,
      if_pos (show Nat.testBit 0x85 7 = true by decide)]

/-- Claim C6: for Model B the decoded temperature is `hi + 0.1 * (lo & 0x7F)`,
negated when bit 7 of `lo` is set; `hi=0x19, lo=0x05` decodes to 25.5 and
`hi=0x19, lo=0x85` to -25.5. -/
theorem dht12_temperature_spec (hi lo : Nat) :
    (decode_temperature .DHT12 hi lo =
      if lo.testBit 7 = true then
        -((hi : ℚ) + (1 / 10 : ℚ) * ((lo % 128 : Nat) : ℚ))
      else (hi : ℚ) + (1 / 10 : ℚ) * ((lo % 128 : Nat) : ℚ)) ∧
    decode_temperature .DHT12 0x19 0x05 = 25.5 ∧
    decode_temperature .DHT12 0x19 0x85 = -25.5 := by
  refine ⟨decode_temperature_dht12_eq hi lo, ?_, ?_⟩
  · rw [decode_temperature_dht12_eq,
      if_neg (show ¬Nat.testBit 0x05 7 = true by decide)]
    norm_num
  · rw [decode_temperature_dht12_eq,
      if_pos (show Nat.testBit 0x85 7 = true by decide)]
    norm_num

/-- Claim C7: decoded humidity is `hi + 0.1 * lo` for Model A/B and
`0.1 * ((hi << 8) + lo)` for Model C/D, with no sign handling; `hi=60, lo=5`
decodes to 60.5 for Model A/B and `hi=0x02, lo=0x58` to 60.0 for Model C/D. -/
theorem humidity_spec (hi lo : Nat) :
    (decode_humidity .DHT11 hi lo = (hi : ℚ) + (1 / 10 : ℚ) * (lo : ℚ)) ∧
    (decode_humidity .DHT12 hi lo = (hi : ℚ) + (1 / 10 : ℚ) * (lo : ℚ)) ∧
    (decode_humidity .DHT21 hi lo = (1 / 10 : ℚ) * ((hi * 256 + lo : Nat) : ℚ)) ∧
    (decode_humidity .DHT22 hi lo = (1 / 10 : ℚ) * ((hi * 256 + lo : Nat) : ℚ)) ∧
    decode_humidity .DHT11 60 5 = 60.5 ∧
    decode_humidity .DHT12 60 5 = 60.5 ∧
    decode_humidity .DHT21 0x02 0x58 = 60 ∧
    decode_humidity .DHT22 0x02 0x58 = 60 := by
  refine ⟨rfl, rfl, ?_, ?_, by norm_num [decode_humidity],
    by norm_num [decode_humidity], ?_, ?_⟩
  · show (1 / 10 : ℚ) * (((hi <<< 8) + lo : Nat) : ℚ) = _
    rw [shiftLeft8]
  · show (1 / 10 : ℚ) * (((hi <<< 8) + lo : Nat) : ℚ) = _
    rw [shiftLeft8]
  · show (1 / 10 : ℚ) * (((0x02 <<< 8) + 0x58 : Nat) : ℚ) = 60
    rw [shiftLeft8]
    norm_num
  · show (1 / 10 : ℚ) * (((0x02 <<< 8) + 0x58 : Nat) : ℚ) = 60
    rw [shiftLeft8]
    norm_num

/-- Claim C8: the example application converts Celsius to Fahrenheit by
`celsius * 9/5 + 32`; 0 maps to 32.0, 100 to 212.0 and -40 to -40.0. -/
theorem celsius_to_fahrenheit_spec (c : ℚ) :
    celsius_to_fahrenheit c = c * 9 / 5 + 32 ∧
    celsius_to_fahrenheit 0 = 32 ∧
    celsius_to_fahrenheit 100 = 212 ∧
    celsius_to_fahrenheit (-40) = -40 := by
  refine ⟨?_, by norm_num [celsius_to_fahrenheit], by norm_num [celsius_to_fahrenheit],
    by norm_num [celsius_to_fahrenheit]⟩
  unfold celsius_to_fahrenheit
  ring
